import Mathlib

/-!
Shallow embedding of the ff-stream-time browser extension (background.js,
options page, popup) for checking its natural-language specification.

Modelling conventions:
* JavaScript objects are modelled as association lists of string keys and
  JVal values; lookup finds the first binding, so overwriting a key means
  consing a new binding in front.  Claims about objects only concern the
  values of fields, so objects are modelled up to lookup semantics.
* JavaScript numbers occurring here are integers or NaN; JSNum is
  Option Int with none playing the role of NaN.  Math.max, Math.floor,
  subtraction, division and comparison propagate none exactly as the JS
  operations propagate NaN.
* Network calls are modelled by environments: a list of scripted fetch
  outcomes consumed in order, and a list of scripted token-refresh
  outcomes.  An exhausted script counts as a network fault, which the
  source catches and turns into an empty result.
* The async/await structure is sequential in the source, so functions are
  modelled as pure state transformers; browser.storage.local is modelled
  by the record of the keys the code touches.
-/

set_option linter.unusedVariables false

inductive JVal where
  | jstr : String → JVal
  | jnum : Int → JVal
  | jbool : Bool → JVal
  | jnull : JVal
  | jarr : List JVal → JVal
  | jobj : List (String × JVal) → JVal
  deriving Repr

/-- An object as its list of fields, looked up first-binding-first. -/
abbrev Obj := List (String × JVal)

/-- Field lookup on an association list; models reading obj.k (and, with
pair keys, reading a cookie addressed by url and name). -/
def olookup {κ α : Type} [DecidableEq κ] : List (κ × α) → κ → Option α
  | [], _ => none
  | p :: rest, k => if k = p.1 then some p.2 else olookup rest k

/-- Models Object.assign(target, source): fields of source win. -/
def oassign {α : Type} (target source : List (String × α)) : List (String × α) :=
  source ++ target

/-- Models the delete operator on a field of an object. -/
def odelete {κ α : Type} [DecidableEq κ] (o : List (κ × α)) (k : κ) : List (κ × α) :=
  o.filter (fun p => !(decide (p.1 = k)))

/-- JS truthiness of a JVal (empty string, zero, false and null are falsy). -/
def truthyJ : JVal → Bool
  | .jstr s => !(s == "")
  | .jnum n => !(n == 0)
  | .jbool b => b
  | .jnull => false
  | .jarr _ => true
  | .jobj _ => true

/-- JS truthiness of a possibly-undefined value. -/
def truthyO : Option JVal → Bool
  | some v => truthyJ v
  | none => false

/-- JS truthiness of a possibly-undefined string-valued field. -/
def truthyS : Option String → Bool
  | some s => !(s == "")
  | none => false

/-- Models the JS expression a or-else b on string-valued fields: the
left value if truthy, otherwise the right operand unchanged. -/
def jsOrS : Option String → Option String → Option String
  | some s, b => if s = "" then b else some s
  | none, b => b

mutual
/-- Models the JS string conversion used by template literals. -/
def jvalToString : JVal → String
  | .jstr s => s
  | .jnum n => toString n
  | .jbool b => toString b
  | .jnull => "null"
  | .jarr l => jvalListToString l
  | .jobj _ => "[object Object]"

/-- Array-to-string: elements joined by commas. -/
def jvalListToString : List JVal → String
  | [] => ""
  | [x] => jvalToString x
  | x :: y :: rest => jvalToString x ++ "," ++ jvalListToString (y :: rest)
end

/-- Template interpolation of a possibly-undefined field. -/
def jtmpl : Option JVal → String
  | some v => jvalToString v
  | none => "undefined"

/-- A JS number: none models NaN. -/
abbrev JSNum := Option Int

/-- Subtraction with NaN propagation. -/
def jsub : JSNum → JSNum → JSNum
  | some x, some y => some (x - y)
  | _, _ => none

/-- Math.max(0, x); Math.max returns NaN when an argument is NaN. -/
def jmaxZero : JSNum → JSNum
  | some x => some (max 0 x)
  | none => none

/-- Math.floor(x / n) for a positive integer literal n; floor division. -/
def jfloorDivP (a : JSNum) (n : Int) : JSNum :=
  a.map (fun x => Int.fdiv x n)

/-- The JS remainder x % n.  The dividends reaching this operation in the
source are clamped nonnegative, where truncating and Euclidean remainder
agree, so Int.emod is used. -/
def jremP (a : JSNum) (n : Int) : JSNum :=
  a.map (fun x => Int.emod x n)

/-- The JS comparison x > 0; false when x is NaN. -/
def jgtZero : JSNum → Bool
  | some x => decide (0 < x)
  | none => false

/-- Template rendering of a JS number. -/
def jnumStr : JSNum → String
  | some x => toString x
  | none => "NaN"

/-- computeUptime from background.js lines 62-74.  The argument is the
result of (new Date startedAtIso).getTime(): some milliseconds when the
timestamp parses, none (NaN) when it does not.  Note that new Date never
throws on a malformed string, so the catch branch of the source is
unreachable for string inputs; NaN flows through the arithmetic. -/
def computeUptime (startGetTime : JSNum) (nowMs : Int) : String :=
  let diff := jmaxZero (jsub (some nowMs) startGetTime)
  let s := jfloorDivP diff 1000
  let h := jfloorDivP s 3600
  let m := jfloorDivP (jremP s 3600) 60
  if jgtZero h then jnumStr h ++ "h " ++ jnumStr m ++ "m"
  else jnumStr m ++ "m"

/-- A configured channel reference as the Twitch adapter reads it. -/
structure ChannelRef where
  id : Option String
  user_id : Option String
  broadcaster_id : Option String
  deriving Repr, DecidableEq

/-- The in-memory twitch settings object passed to checkTwitch. -/
structure TwitchSettings where
  clientId : Option String
  clientSecret : Option String
  accessToken : Option String
  refreshToken : Option String
  channels : Option (List ChannelRef)
  deriving Repr

/-- The id extraction of checkTwitch line 80: for each channel the JS
expression c.id or-else c.user_id or-else c.broadcaster_id, then
filter(Boolean) keeping only truthy (nonempty, defined) ids. -/
def idsOf (channels : List ChannelRef) : List String :=
  channels.filterMap fun c =>
    match jsOrS (jsOrS c.id c.user_id) c.broadcaster_id with
    | some s => if s = "" then none else some s
    | none => none

/-- One stream record of the Twitch helix streams response. -/
structure TwitchStream where
  user_id : String
  user_login : String
  user_name : String
  title : String
  game_name : String
  viewer_count : Int
  started_at : String
  deriving Repr, DecidableEq

/-- The per-stream object literal of checkTwitch lines 116-126.  The
parse argument models (new Date).getTime on the started_at string. -/
def twitchStreamEntry (parse : String → JSNum) (now : Int) (s : TwitchStream) : Obj :=
  [("user_id", .jstr s.user_id),
   ("user_login", .jstr s.user_login),
   ("display_name", .jstr s.user_name),
   ("title", .jstr s.title),
   ("game", .jstr s.game_name),
   ("viewers", .jnum s.viewer_count),
   ("started_at", .jstr s.started_at),
   ("uptime", .jstr (computeUptime (parse s.started_at) now)),
   ("url", .jstr ("https://twitch.tv/" ++ s.user_login))]

/-- One scripted outcome of a fetch of the streams endpoint: an HTTP
response with a status and (for 2xx) the decoded data array, or a network
fault (the fetch promise rejecting). -/
inductive FetchOutcome where
  | resp : Nat → List TwitchStream → FetchOutcome
  | netFail : FetchOutcome
  deriving Repr

/-- checkTwitch from background.js lines 78-131, with the network
abstracted as scripted outcome lists consumed in order: fetches are the
successive responses of the streams endpoint, refreshes the successive
results of refreshTwitchToken (some token on success, none on failure;
an exhausted script counts as failure).  Returns the adapter result
together with the number of token refreshes performed during the call,
counting through the recursive retry of line 103. -/
def checkTwitch (parse : String → JSNum) (now : Int) (s : TwitchSettings) :
    List FetchOutcome → List (Option String) → List Obj × Nat
  | fetches, refreshes =>
    if !(truthyS s.clientId) || !(truthyS s.accessToken) || s.channels.isNone then
      ([], 0)
    else
      let ids := idsOf (s.channels.getD [])
      if ids.isEmpty then ([], 0)
      else
        match fetches, refreshes with
        | [], _ => ([], 0)
        | .netFail :: _, _ => ([], 0)
        | .resp status data :: rest, refs =>
          if status == 401 || status == 403 then
            match refs with
            | some tok :: rrest =>
              let r := checkTwitch parse now { s with accessToken := some tok } rest rrest
              (r.1, r.2 + 1)
            | none :: _ => ([], 1)
            | [] => ([], 1)
          else if 200 ≤ status && status < 300 then
            (data.map (twitchStreamEntry parse now), 0)
          else ([], 0)

/-- One kick stream sub-object of the channels response. -/
structure KickStream where
  is_live : Bool
  viewer_count : Option Int
  start_time : Option String
  deriving Repr, DecidableEq

/-- One kick channel record of the channels response. -/
structure KickChannel where
  broadcaster_user_id : Int
  slug : String
  stream_title : Option String
  category_name : Option String
  stream : Option KickStream
  deriving Repr, DecidableEq

/-- The per-channel object literal of checkKick lines 178-187.  The
preceding filter (line 177) guarantees the stream sub-object is present,
so the default stream never contributes to reachable results. -/
def kickChannelEntry (parse : String → JSNum) (now : Int) (ch : KickChannel) : Obj :=
  let stm := ch.stream.getD ⟨false, none, none⟩
  [("id", .jnum ch.broadcaster_user_id),
   ("slug", .jstr ch.slug),
   ("title", .jstr (match ch.stream_title with
      | some t => if t = "" then "Live on " ++ ch.slug else t
      | none => "Live on " ++ ch.slug)),
   ("game", .jstr (match ch.category_name with
      | some n => if n = "" then "Unknown" else n
      | none => "Unknown")),
   ("viewers", .jnum (stm.viewer_count.getD 0)),
   ("started_at", match stm.start_time with
      | some t => if t = "" then JVal.jnull else .jstr t
      | none => JVal.jnull),
   ("uptime", .jstr (match stm.start_time with
      | some t => if t = "" then "" else computeUptime (parse t) now
      | none => "")),
   ("url", .jstr ("https://kick.com/" ++ ch.slug))]

/-- One live search item of the YouTube search response. -/
structure YTItem where
  videoId : String
  title : String
  publishedAt : String
  deriving Repr, DecidableEq

/-- The per-channel object literal of checkYouTube lines 215-221. -/
def ytItemEntry (parse : String → JSNum) (now : Int) (channelId : String) (v : YTItem) : Obj :=
  [("channelId", .jstr channelId),
   ("title", .jstr v.title),
   ("url", .jstr ("https://www.youtube.com/watch?v=" ++ v.videoId)),
   ("started_at", .jstr v.publishedAt),
   ("duration", .jstr (if v.publishedAt = "" then "" else computeUptime (parse v.publishedAt) now))]

/-- The durable settings record streamtime: platform name to platform
object, modelled up to lookup; absence of the record is the empty list,
matching the or-else-empty-object defaults of the source. -/
abbrev Settings := List (String × Obj)

/-- mergeSettings from background.js lines 231-241: read the current
record, shallow-merge each platform object of newData over the stored
one (Object.assign, line 236), write back.  structuredClone is the
identity on this pure model. -/
def mergeSettings (current : Settings) (newData : List (String × Obj)) : Settings :=
  newData.foldl
    (fun merged kv => (kv.1, oassign ((olookup merged kv.1).getD []) kv.2) :: merged)
    current

/-- The cookie jar: (url, name) keyed values, newest binding first. -/
abbrev Cookies := List ((String × String) × String)

/-- setAccessTokenCookie from background.js lines 17-28 (expiry elided:
no claim concerns it). -/
def setAccessTokenCookie (c : Cookies) (url name value : String) : Cookies :=
  ((url, name), value) :: c

/-- removeAccessTokenCookie from the options page. -/
def removeAccessTokenCookie (c : Cookies) (url name : String) : Cookies :=
  c.filter (fun kv => !(kv.1 == (url, name)))

/-- One scripted outcome of a POST to a token endpoint. -/
inductive RefreshOutcome where
  | httpResp : Nat → Obj → RefreshOutcome
  | netFail : RefreshOutcome
  deriving Repr

/-- refreshTwitchToken from background.js lines 330-373, with the POST to
the token endpoint abstracted as a scripted outcome.  On success the new
access token goes to the cookie jar (line 355) and only the possibly
rotated refresh token goes through mergeSettings to the durable record
(lines 358-362).  Returns the token (none on any failure path), the
durable settings and the cookie jar. -/
def refreshTwitchToken (clientId clientSecret refreshToken : String)
    (outcome : RefreshOutcome) (st : Settings) (cookies : Cookies) :
    Option String × Settings × Cookies :=
  match outcome with
  | .netFail => (none, st, cookies)
  | .httpResp status body =>
    if !(200 ≤ status && status < 300) then (none, st, cookies)
    else
      match olookup body "access_token" with
      | some v =>
        if truthyJ v then
          let tok := jvalToString v
          let cookies2 :=
            setAccessTokenCookie cookies "https://api.twitch.tv/" "twitch_access_token" tok
          let rt : JVal :=
            match olookup body "refresh_token" with
            | some rv => if truthyJ rv then rv else .jstr refreshToken
            | none => .jstr refreshToken
          let st2 := mergeSettings st [("twitch", [("refreshToken", rt)])]
          (some tok, st2, cookies2)
        else (none, st, cookies)
      | none => (none, st, cookies)

/-- refreshKickToken from background.js lines 375-429: same shape as the
Twitch refresh plus the missing-credentials guard of lines 376-379. -/
def refreshKickToken (clientId clientSecret refreshToken : Option String)
    (outcome : RefreshOutcome) (st : Settings) (cookies : Cookies) :
    Option String × Settings × Cookies :=
  if !(truthyS clientId) || !(truthyS clientSecret) || !(truthyS refreshToken) then
    (none, st, cookies)
  else
    match outcome with
    | .netFail => (none, st, cookies)
    | .httpResp status body =>
      if !(200 ≤ status && status < 300) then (none, st, cookies)
      else
        match olookup body "access_token" with
        | some v =>
          if truthyJ v then
            let tok := jvalToString v
            let cookies2 :=
              setAccessTokenCookie cookies "https://kick.com/" "kick_access_token" tok
            let rt : JVal :=
              match olookup body "refresh_token" with
              | some rv => if truthyJ rv then rv else .jstr (refreshToken.getD "")
              | none => .jstr (refreshToken.getD "")
            let st2 := mergeSettings st [("kick", [("refreshToken", rt)])]
            (some tok, st2, cookies2)
          else (none, st, cookies)
        | none => (none, st, cookies)

/-- The cookie update of the options-page saveSettings: set the platform
cookie when the given access token is truthy, otherwise remove it. -/
def saveSettingsCookie (platform : String) (atok : Option JVal) (cookies : Cookies) :
    Cookies :=
  let apply := fun (url name : String) =>
    match atok with
    | some v => if truthyJ v then setAccessTokenCookie cookies url name (jvalToString v)
                else removeAccessTokenCookie cookies url name
    | none => removeAccessTokenCookie cookies url name
  if platform = "twitch" then apply "https://api.twitch.tv/" "twitch_access_token"
  else if platform = "kick" then apply "https://kick.com/" "kick_access_token"
  else if platform = "youtube" then apply "https://www.googleapis.com/" "youtube_access_token"
  else cookies

/-- saveSettings from the options page (part_001 lines 75-103):
Object.assign the new fields over the stored platform object, delete the
accessToken field when the new fields carried one, write the record back,
and route the access token to the cookie jar. -/
def saveSettings (platform : String) (obj : Obj) (st : Settings) (cookies : Cookies) :
    Settings × Cookies :=
  let old := (olookup st platform).getD []
  let rec1 := oassign old obj
  let atok := olookup obj "accessToken"
  let rec2 := if atok.isSome then odelete rec1 "accessToken" else rec1
  ((platform, rec2) :: st, saveSettingsCookie platform atok cookies)

/-- The consolidated live snapshot streamtime_live. -/
structure LiveState where
  twitch : List Obj
  kick : List Obj
  youtube : List Obj

/-- The browser.storage.local keys the background script touches. -/
structure Storage where
  streamtime : Settings
  streamtime_live : Option LiveState
  streamtime_last_poll : Option String

/-- pollAll from background.js lines 243-265.  The three adapter calls
are abstracted at their call interface: each argument is the outcome of
the corresponding await, ok with the returned list or error when the
adapter threw.  The source initialises the live object to three empty
lists and assigns each field inside its own try/catch, so a throwing
adapter leaves its field empty; the Except codomain records that pollAll
itself could propagate an exception but never does. -/
def pollAll (tw ki yt : Except String (List Obj)) (now : String) (st : Storage) :
    Except String Storage :=
  let ltw := match tw with | .ok l => l | .error _ => []
  let lki := match ki with | .ok l => l | .error _ => []
  let lyt := match yt with | .ok l => l | .error _ => []
  .ok { st with
        streamtime_live := some ⟨ltw, lki, lyt⟩,
        streamtime_last_poll := some now }

/-- The template expression twitch-(dollar)user_id of lines 278 and 285. -/
def twitchKey (o : Obj) : String := "twitch-" ++ jtmpl (olookup o "user_id")

/-- The template expression kick-(dollar)id of lines 279 and 298. -/
def kickKey (o : Obj) : String := "kick-" ++ jtmpl (olookup o "id")

/-- The template expression yt-(dollar)channelId of lines 280 and 311. -/
def ytKey (o : Obj) : String := "yt-" ++ jtmpl (olookup o "channelId")

/-- The combined current live id set of lines 277-281, as its
construction list (the JS Set has the same membership). -/
def currentLiveIds (ld : LiveState) : List String :=
  ld.twitch.map twitchKey ++ ld.kick.map kickKey ++ ld.youtube.map ytKey

/-- One created notification: its stable id, title and message. -/
structure Notif where
  id : String
  title : String
  message : String
  deriving Repr, DecidableEq

/-- One platform loop of checkLiveChannels: create a notification for
each entry whose key is not in the previous live set. -/
def notifyList {α : Type} (prev : List String) (key : α → String) (mk : α → Notif)
    (xs : List α) : List Notif :=
  xs.filterMap fun o => if prev.contains (key o) then none else some (mk o)

/-- checkLiveChannels from background.js lines 271-325: read the stored
live snapshot (empty when absent), build the current id set, fire one
notification per entry not previously live, and replace the previous
live set with the current one unconditionally.  Returns the created
notifications and the new previous-live set. -/
def checkLiveChannels (stLive : Option LiveState) (prev : List String) :
    List Notif × List String :=
  let liveData := stLive.getD ⟨[], [], []⟩
  let current := currentLiveIds liveData
  let ntw := notifyList prev twitchKey
    (fun o => ⟨twitchKey o,
               jtmpl (olookup o "display_name") ++ " is live on Twitch!",
               jtmpl (olookup o "title")⟩) liveData.twitch
  let nki := notifyList prev kickKey
    (fun o => ⟨kickKey o,
               jtmpl (olookup o "slug") ++ " is live on Kick!",
               jtmpl (olookup o "title")⟩) liveData.kick
  let nyt := notifyList prev ytKey
    (fun o => ⟨ytKey o,
               "YouTube Live: " ++ jtmpl (olookup o "title"),
               "A subscribed channel just went live!"⟩) liveData.youtube
  (ntw ++ nki ++ nyt, current)

/-- The durable record stores no access token: every platform binding of
the settings record lacks an accessToken field. -/
def noStoredAccessToken (st : Settings) : Bool :=
  st.all fun p => (olookup p.2 "accessToken").isNone

/-! Helper lemmas about the object model. -/

theorem olookup_append {κ α : Type} [DecidableEq κ] (l1 l2 : List (κ × α)) (k : κ) :
    olookup (l1 ++ l2) k = (olookup l1 k <|> olookup l2 k) := by
  induction l1 with
  | nil => simp [olookup]
  | cons p rest ih =>
    by_cases h : k = p.1 <;> simp [olookup, h, ih]

theorem olookup_mem {κ α : Type} [DecidableEq κ] {l : List (κ × α)} {k : κ} {v : α}
    (h : olookup l k = some v) : (k, v) ∈ l := by
  induction l with
  | nil => simp [olookup] at h
  | cons p rest ih =>
    by_cases hk : k = p.1
    · simp [olookup, hk] at h
      subst hk
      simp [← h]
    · simp [olookup, hk] at h
      exact List.mem_cons_of_mem _ (ih h)

theorem olookup_odelete {κ α : Type} [DecidableEq κ] (o : List (κ × α)) (k : κ) :
    olookup (odelete o k) k = none := by
  induction o with
  | nil => rfl
  | cons p rest ih =>
    by_cases hk : p.1 = k
    · simpa [odelete, hk] using ih
    · have : k ≠ p.1 := fun e => hk e.symm
      simp [odelete, olookup, hk, this] at ih ⊢
      exact ih

theorem mergeSettings_cons (cur : Settings) (p : String × Obj) (rest : List (String × Obj)) :
    mergeSettings cur (p :: rest)
      = mergeSettings ((p.1, oassign ((olookup cur p.1).getD []) p.2) :: cur) rest := rfl

theorem mergeSettings_unmentioned (cur : Settings) (nd : List (String × Obj)) (k : String)
    (h : k ∉ nd.map Prod.fst) : olookup (mergeSettings cur nd) k = olookup cur k := by
  induction nd generalizing cur with
  | nil => rfl
  | cons p rest ih =>
    have hk : k ≠ p.1 := by
      intro e
      exact h (by simp [e])
    have hrest : k ∉ rest.map Prod.fst := by
      intro e
      exact h (by simp [e])
    rw [mergeSettings_cons, ih _ hrest]
    simp [olookup, hk]

theorem noStoredAccessToken_merge (cur : Settings) (nd : List (String × Obj))
    (h1 : noStoredAccessToken cur = true)
    (h2 : ∀ p ∈ nd, (olookup p.2 "accessToken").isNone = true) :
    noStoredAccessToken (mergeSettings cur nd) = true := by
  induction nd generalizing cur with
  | nil => exact h1
  | cons p rest ih =>
    rw [mergeSettings_cons]
    apply ih
    · apply List.all_eq_true.mpr
      intro q hq
      rcases List.mem_cons.mp hq with hhead | htail
      · subst hhead
        show (olookup (oassign ((olookup cur p.1).getD []) p.2) "accessToken").isNone = true
        rw [oassign, olookup_append]
        have hsrc : olookup p.2 "accessToken" = none :=
          Option.isNone_iff_eq_none.mp (h2 p (List.mem_cons_self p rest))
        have hold : olookup ((olookup cur p.1).getD []) "accessToken" = none := by
          cases ho : olookup cur p.1 with
          | none => rfl
          | some rec0 =>
            have hmem : (p.1, rec0) ∈ cur := olookup_mem ho
            have := List.all_eq_true.mp h1 _ hmem
            simpa [Option.isNone_iff_eq_none] using this
        simp [hsrc, hold]
      · exact List.all_eq_true.mp h1 q htail
    · intro q hq
      exact h2 q (List.mem_cons_of_mem _ hq)


theorem refresh_merge_frame (st : Settings) (plat : String) (rtv : JVal) :
    (∀ f, f ≠ "refreshToken" →
       olookup ((olookup (mergeSettings st [(plat, [("refreshToken", rtv)])]) plat).getD []) f
         = olookup ((olookup st plat).getD []) f)
    ∧ (∀ q, q ≠ plat →
       olookup (mergeSettings st [(plat, [("refreshToken", rtv)])]) q = olookup st q) := by
  have hm : mergeSettings st [(plat, [("refreshToken", rtv)])]
      = (plat, oassign ((olookup st plat).getD []) [("refreshToken", rtv)]) :: st := rfl
  constructor
  · intro f hf
    rw [hm]
    simp only [olookup, if_pos rfl, Option.getD_some]
    rw [if_neg hf]
    rfl
  · intro q hq
    rw [hm]
    simp [olookup, hq]

theorem refreshTwitchToken_spec (cid sec rt : String) (outcome : RefreshOutcome)
    (st : Settings) (cookies : Cookies) (h : noStoredAccessToken st = true) :
    noStoredAccessToken (refreshTwitchToken cid sec rt outcome st cookies).2.1 = true
    ∧ (∀ tok, (refreshTwitchToken cid sec rt outcome st cookies).1 = some tok →
        olookup (refreshTwitchToken cid sec rt outcome st cookies).2.2
            ("https://api.twitch.tv/", "twitch_access_token") = some tok
        ∧ (∀ f, f ≠ "refreshToken" →
            olookup ((olookup (refreshTwitchToken cid sec rt outcome st cookies).2.1
                "twitch").getD []) f
              = olookup ((olookup st "twitch").getD []) f)
        ∧ (∀ q, q ≠ "twitch" →
            olookup (refreshTwitchToken cid sec rt outcome st cookies).2.1 q
              = olookup st q)) := by
  cases outcome with
  | netFail =>
    refine ⟨h, ?_⟩
    intro tok htok
    simp [refreshTwitchToken] at htok
  | httpResp status body =>
    by_cases hok : (200 ≤ status && status < 300) = true
    · cases hat : olookup body "access_token" with
      | none =>
        refine ⟨by simp [refreshTwitchToken, hok, hat, h], ?_⟩
        intro tok htok
        simp [refreshTwitchToken, hok, hat] at htok
      | some v =>
        by_cases htr : truthyJ v = true
        · have hred : refreshTwitchToken cid sec rt (.httpResp status body) st cookies
              = (some (jvalToString v),
                 mergeSettings st [("twitch",
                   [("refreshToken",
                     match olookup body "refresh_token" with
                     | some rv => if truthyJ rv then rv else .jstr rt
                     | none => .jstr rt)])],
                 setAccessTokenCookie cookies "https://api.twitch.tv/"
                   "twitch_access_token" (jvalToString v)) := by
            simp [refreshTwitchToken, hok, hat, htr]
          rw [hred]
          constructor
          · apply noStoredAccessToken_merge _ _ h
            intro p hp
            rcases List.mem_cons.mp hp with hhead | htail
            · subst hhead
              rfl
            · simp at htail
          · intro tok htok
            have htokv : some (jvalToString v) = some tok := htok
            cases Option.some.inj htokv
            refine ⟨by simp [setAccessTokenCookie, olookup], ?_, ?_⟩
            · exact (refresh_merge_frame st "twitch" _).1
            · exact (refresh_merge_frame st "twitch" _).2
        · refine ⟨by simp [refreshTwitchToken, hok, hat, htr, h], ?_⟩
          intro tok htok
          simp [refreshTwitchToken, hok, hat, htr] at htok
    · refine ⟨by simp [refreshTwitchToken, hok, h], ?_⟩
      intro tok htok
      simp [refreshTwitchToken, hok] at htok

theorem refreshKickToken_spec (cid sec rt : Option String) (outcome : RefreshOutcome)
    (st : Settings) (cookies : Cookies) (h : noStoredAccessToken st = true) :
    noStoredAccessToken (refreshKickToken cid sec rt outcome st cookies).2.1 = true
    ∧ (∀ tok, (refreshKickToken cid sec rt outcome st cookies).1 = some tok →
        olookup (refreshKickToken cid sec rt outcome st cookies).2.2
            ("https://kick.com/", "kick_access_token") = some tok
        ∧ (∀ f, f ≠ "refreshToken" →
            olookup ((olookup (refreshKickToken cid sec rt outcome st cookies).2.1
                "kick").getD []) f
              = olookup ((olookup st "kick").getD []) f)
        ∧ (∀ q, q ≠ "kick" →
            olookup (refreshKickToken cid sec rt outcome st cookies).2.1 q
              = olookup st q)) := by
  by_cases hg : (!(truthyS cid) || !(truthyS sec) || !(truthyS rt)) = true
  · refine ⟨by simp [refreshKickToken, hg, h], ?_⟩
    intro tok htok
    simp [refreshKickToken, hg] at htok
  · cases outcome with
    | netFail =>
      refine ⟨by simp [refreshKickToken, hg, h], ?_⟩
      intro tok htok
      simp [refreshKickToken, hg] at htok
    | httpResp status body =>
      by_cases hok : (200 ≤ status && status < 300) = true
      · cases hat : olookup body "access_token" with
        | none =>
          refine ⟨by simp [refreshKickToken, hg, hok, hat, h], ?_⟩
          intro tok htok
          simp [refreshKickToken, hg, hok, hat] at htok
        | some v =>
          by_cases htr : truthyJ v = true
          · have hred : refreshKickToken cid sec rt (.httpResp status body) st cookies
                = (some (jvalToString v),
                   mergeSettings st [("kick",
                     [("refreshToken",
                       match olookup body "refresh_token" with
                       | some rv => if truthyJ rv then rv else .jstr (rt.getD "")
                       | none => .jstr (rt.getD ""))])],
                   setAccessTokenCookie cookies "https://kick.com/"
                     "kick_access_token" (jvalToString v)) := by
              simp [refreshKickToken, hg, hok, hat, htr]
            rw [hred]
            constructor
            · apply noStoredAccessToken_merge _ _ h
              intro p hp
              rcases List.mem_cons.mp hp with hhead | htail
              · subst hhead
                rfl
              · simp at htail
            · intro tok htok
              have htokv : some (jvalToString v) = some tok := htok
              cases Option.some.inj htokv
              refine ⟨by simp [setAccessTokenCookie, olookup], ?_, ?_⟩
              · exact (refresh_merge_frame st "kick" _).1
              · exact (refresh_merge_frame st "kick" _).2
          · refine ⟨by simp [refreshKickToken, hg, hok, hat, htr, h], ?_⟩
            intro tok htok
            simp [refreshKickToken, hg, hok, hat, htr] at htok
      · refine ⟨by simp [refreshKickToken, hg, hok, h], ?_⟩
        intro tok htok
        simp [refreshKickToken, hg, hok] at htok

theorem saveSettings_noAT (platform : String) (obj : Obj) (st : Settings)
    (cookies : Cookies) (h : noStoredAccessToken st = true) :
    noStoredAccessToken (saveSettings platform obj st cookies).1 = true := by
  have hall := List.all_eq_true.mp h
  apply List.all_eq_true.mpr
  intro p hp
  have hp2 : p = (platform,
      if (olookup obj "accessToken").isSome then
        odelete (oassign ((olookup st platform).getD []) obj) "accessToken"
      else oassign ((olookup st platform).getD []) obj) ∨ p ∈ st := by
    simpa [saveSettings] using hp
  rcases hp2 with hhead | htail
  · subst hhead
    show (olookup (if (olookup obj "accessToken").isSome then
        odelete (oassign ((olookup st platform).getD []) obj) "accessToken"
      else oassign ((olookup st platform).getD []) obj) "accessToken").isNone = true
    cases hat : (olookup obj "accessToken").isSome with
    | true =>
      rw [if_pos rfl]
      simp [olookup_odelete]
    | false =>
      rw [if_neg (by simp)]
      have hobj : olookup obj "accessToken" = none :=
        Option.not_isSome_iff_eq_none.mp (by simp [hat])
      have hold : olookup ((olookup st platform).getD []) "accessToken" = none := by
        cases ho : olookup st platform with
        | none => rfl
        | some rec0 =>
          have hmem : (platform, rec0) ∈ st := olookup_mem ho
          simpa [Option.isNone_iff_eq_none] using hall _ hmem
      unfold oassign
      rw [olookup_append]
      simp [hobj, hold]
  · exact hall p htail

theorem contains_eq_mem (l : List String) (a : String) :
    l.contains a = true ↔ a ∈ l := by
  simp

theorem notifyList_ids {α : Type} (prev : List String) (key : α → String)
    (mk : α → Notif) (hmk : ∀ a, (mk a).id = key a) (xs : List α) :
    (notifyList prev key mk xs).map Notif.id
      = (xs.map key).filter (fun i => !(prev.contains i)) := by
  induction xs with
  | nil => rfl
  | cons a rest ih =>
    simp only [notifyList] at ih ⊢
    rw [List.filterMap_cons, List.map_cons, List.filter_cons]
    cases hc : prev.contains (key a) with
    | true => simpa [hc] using ih
    | false =>
      rw [if_neg (by simp [hc])]
      rw [show ((mk a :: List.filterMap
          (fun o => if prev.contains (key o) = true then none else some (mk o)) rest).map
            Notif.id)
        = (mk a).id :: (List.filterMap
          (fun o => if prev.contains (key o) = true then none else some (mk o)) rest).map
            Notif.id from rfl]
      rw [ih]
      simp [hc, hmk]

theorem fdiv_nonneg_toNat (e : Int) (h : 0 ≤ e) (n : Nat) :
    Int.fdiv e (Int.ofNat n) = Int.ofNat (e.toNat / n) := by
  cases e with
  | ofNat m => exact (Int.ofNat_fdiv m n).symm
  | negSucc m => exact absurd h (by simp)

theorem emod_nonneg_toNat (e : Int) (h : 0 ≤ e) (n : Nat) :
    Int.emod e (Int.ofNat n) = Int.ofNat (e.toNat % n) := by
  cases e with
  | ofNat m => rfl
  | negSucc m => exact absurd h (by simp)

/-- The seconds value computed at line 66 of the source for a valid
timestamp: elapsed milliseconds clamped at zero, floor-divided by 1000. -/
def uptimeSecs (startMs nowMs : Int) : Nat := (max 0 (nowMs - startMs)).toNat / 1000

/-- The total whole minutes shown by computeUptime for a valid timestamp
(the shown hours times sixty plus the shown minutes). -/
def uptimeMinutes (startMs nowMs : Int) : Nat := uptimeSecs startMs nowMs / 60

theorem computeUptime_some_eq (startMs nowMs : Int) :
    computeUptime (some startMs) nowMs =
      (if 0 < uptimeSecs startMs nowMs / 3600 then
         toString (uptimeSecs startMs nowMs / 3600) ++ "h "
           ++ toString (uptimeSecs startMs nowMs % 3600 / 60) ++ "m"
       else toString (uptimeSecs startMs nowMs % 3600 / 60) ++ "m") := by
  have h0 : (0 : Int) ≤ max 0 (nowMs - startMs) := le_max_left _ _
  unfold computeUptime uptimeSecs
  simp only [jsub, jmaxZero, jfloorDivP, jremP, Option.map_some']
  rw [show ((1000 : Int)) = Int.ofNat 1000 from rfl,
      fdiv_nonneg_toNat _ h0 1000]
  have hnn : ∀ m : Nat, (0 : Int) ≤ Int.ofNat m := fun m => Int.ofNat_nonneg m
  rw [show ((3600 : Int)) = Int.ofNat 3600 from rfl,
      fdiv_nonneg_toNat _ (hnn _) 3600,
      emod_nonneg_toNat _ (hnn _) 3600]
  rw [show ((60 : Int)) = Int.ofNat 60 from rfl,
      fdiv_nonneg_toNat _ (hnn _) 60]
  simp only [show ∀ m : Nat, (Int.ofNat m).toNat = m from fun _ => rfl]
  simp only [jgtZero, jnumStr, Int.ofNat_pos, decide_eq_true_eq]
  simp only [show ∀ m : Nat, toString (Int.ofNat m) = toString m from fun _ => rfl]
  by_cases hp : 0 < (0 ⊔ (nowMs - startMs)).toNat / 1000 / 3600
  · rw [if_pos (show (0:Int) < Int.ofNat _ from Int.ofNat_pos.mpr hp), if_pos hp]
  · rw [if_neg (show ¬(0:Int) < Int.ofNat _ from fun h => hp (Int.ofNat_pos.mp h)),
        if_neg hp]

/-! The claims. -/

/-- Claim C4 (settled as a code bug): for an input string that does not
parse as a timestamp, (new Date).getTime() is NaN (new Date throws on no
string), so computeUptime returns the string NaNm, not the empty string
the specification promises: the catch branch that would return the empty
string is unreachable for string inputs. -/
theorem computeUptime_parse_failure_yields_NaNm (nowMs : Int) :
    computeUptime none nowMs = "NaNm" := rfl

/-- Claim C7: for every valid timestamp, computeUptime clamps negative
elapsed time to zero, renders hours and minutes exactly when at least one
hour has elapsed and bare minutes otherwise (digits from the decimal
rendering of the shown hour and minute counts), and the total shown
minutes are monotone in elapsed time. -/
theorem computeUptime_valid_props (startMs nowMs nowMs2 : Int) :
    (nowMs - startMs ≤ 0 → computeUptime (some startMs) nowMs = "0m")
    ∧ (3600000 ≤ nowMs - startMs →
        1 ≤ uptimeMinutes startMs nowMs / 60
        ∧ computeUptime (some startMs) nowMs =
            toString (uptimeMinutes startMs nowMs / 60) ++ "h "
              ++ toString (uptimeMinutes startMs nowMs % 60) ++ "m")
    ∧ (nowMs - startMs < 3600000 →
        uptimeMinutes startMs nowMs < 60
        ∧ computeUptime (some startMs) nowMs =
            toString (uptimeMinutes startMs nowMs) ++ "m")
    ∧ (nowMs ≤ nowMs2 → uptimeMinutes startMs nowMs ≤ uptimeMinutes startMs nowMs2) := by
  refine ⟨?_, ?_, ?_, ?_⟩
  · intro h
    have hs : uptimeSecs startMs nowMs = 0 := by
      unfold uptimeSecs
      omega
    rw [computeUptime_some_eq, hs]
    decide
  · intro h
    have hsec : 3600 ≤ uptimeSecs startMs nowMs := by
      unfold uptimeSecs
      omega
    constructor
    · unfold uptimeMinutes
      omega
    · rw [computeUptime_some_eq,
          if_pos (show 0 < uptimeSecs startMs nowMs / 3600 by omega)]
      unfold uptimeMinutes
      have e1 : uptimeSecs startMs nowMs / 3600 = uptimeSecs startMs nowMs / 60 / 60 := by
        omega
      have e2 : uptimeSecs startMs nowMs % 3600 / 60
          = uptimeSecs startMs nowMs / 60 % 60 := by
        omega
      rw [e1, e2]
  · intro h
    have hsec : uptimeSecs startMs nowMs < 3600 := by
      unfold uptimeSecs
      omega
    constructor
    · unfold uptimeMinutes
      omega
    · rw [computeUptime_some_eq,
          if_neg (show ¬0 < uptimeSecs startMs nowMs / 3600 by omega)]
      unfold uptimeMinutes
      rw [show uptimeSecs startMs nowMs % 3600 = uptimeSecs startMs nowMs by omega]
  · intro h
    unfold uptimeMinutes uptimeSecs
    have : (max 0 (nowMs - startMs)).toNat ≤ (max 0 (nowMs2 - startMs)).toNat := by
      omega
    exact Nat.div_le_div_right (Nat.div_le_div_right this)

/-- Witness for C7 at a concrete input: one hour and one minute of
elapsed time renders as 1h 1m. -/
theorem computeUptime_valid_props_witness :
    ((3600000 : Int) ≤ 3700000 - 0)
    ∧ computeUptime (some 0) 3700000 = "1h 1m" := by
  refine ⟨by decide, ?_⟩
  have h := ((computeUptime_valid_props 0 3700000 3700000).2.1 (by decide)).2
  rw [h]
  decide

/-- Concrete twitch settings with full credentials and one channel. -/
def demoTwitchSettings : TwitchSettings :=
  { clientId := some "cid", clientSecret := some "sec",
    accessToken := some "tok0", refreshToken := some "rt0",
    channels := some [{ id := some "42", user_id := none, broadcaster_id := none }] }

/-- A concrete live stream record for channel 42. -/
def demoStream : TwitchStream :=
  { user_id := "42", user_login := "chan", user_name := "Chan",
    title := "T", game_name := "G", viewer_count := 5,
    started_at := "2024-01-01T00:00:00Z" }

/-- Claim C1 (settled as a code bug): the specification and the source
comments say the adapter retries exactly once after a successful refresh
and that a second authorization failure yields an empty list, but the
retry at line 103 re-enters the whole check with no bound: here the
streams endpoint answers 403 twice and the token endpoint succeeds twice,
and the call performs two refreshes and still returns the stream list
delivered by the third fetch instead of stopping empty after the second
authorization failure. -/
theorem checkTwitch_second_auth_failure_refreshes_again :
    checkTwitch (fun _ => some 0) 60000 demoTwitchSettings
        [.resp 403 [], .resp 403 [], .resp 200 [demoStream]]
        [some "tok1", some "tok2"]
      = ([twitchStreamEntry (fun _ => some 0) 60000 demoStream], 2) := rfl

/-- Claim C2: pollAll always completes with a stored result, and when one
adapter throws while the other two return lists, the thrown error is
swallowed and both other platforms' lists are written to the snapshot,
with the thrower's slot left as the empty list. -/
theorem pollAll_isolates_adapter_errors (tw ki yt : Except String (List Obj))
    (now : String) (st : Storage) :
    (∃ st2, pollAll tw ki yt now st = Except.ok st2)
    ∧ (∀ e lk ly, tw = .error e → ki = .ok lk → yt = .ok ly →
        pollAll tw ki yt now st
          = .ok { st with streamtime_live := some ⟨[], lk, ly⟩,
                          streamtime_last_poll := some now })
    ∧ (∀ e lt ly, ki = .error e → tw = .ok lt → yt = .ok ly →
        pollAll tw ki yt now st
          = .ok { st with streamtime_live := some ⟨lt, [], ly⟩,
                          streamtime_last_poll := some now })
    ∧ (∀ e lt lk, yt = .error e → tw = .ok lt → ki = .ok lk →
        pollAll tw ki yt now st
          = .ok { st with streamtime_live := some ⟨lt, lk, []⟩,
                          streamtime_last_poll := some now }) := by
  refine ⟨⟨_, rfl⟩, ?_, ?_, ?_⟩
  · intro e lk ly h1 h2 h3
    subst h1; subst h2; subst h3
    rfl
  · intro e lt ly h1 h2 h3
    subst h1; subst h2; subst h3
    rfl
  · intro e lt lk h1 h2 h3
    subst h1; subst h2; subst h3
    rfl

/-- Witness for C2 at concrete outcomes: the twitch adapter throws, kick
and youtube return lists, and both lists are still recorded. -/
theorem pollAll_isolates_adapter_errors_witness :
    pollAll (Except.error "boom") (.ok [[("id", JVal.jnum 7)]]) (.ok []) "t0"
        { streamtime := [], streamtime_live := none, streamtime_last_poll := none }
      = .ok { streamtime := [],
              streamtime_live := some ⟨[], [[("id", JVal.jnum 7)]], []⟩,
              streamtime_last_poll := some "t0" } :=
  (pollAll_isolates_adapter_errors (Except.error "boom") (.ok [[("id", JVal.jnum 7)]])
      (.ok []) "t0"
      { streamtime := [], streamtime_live := none,
        streamtime_last_poll := none }).2.1 "boom" _ _ rfl rfl rfl

/-- Claim C8: every pollAll invocation stores a snapshot and a fresh
last-poll timestamp, the stored snapshot does not depend on the storage
state it overwrites (full replacement, not a merge), and three empty
adapter results still store the empty snapshot. -/
theorem pollAll_overwrites_snapshot (tw ki yt : Except String (List Obj))
    (now : String) (st1 st2 : Storage) :
    ∃ r1, pollAll tw ki yt now st1 = .ok r1
      ∧ r1.streamtime_last_poll = some now
      ∧ r1.streamtime_live.isSome = true
      ∧ (∀ r2, pollAll tw ki yt now st2 = .ok r2 →
          r2.streamtime_live = r1.streamtime_live
          ∧ r2.streamtime_last_poll = r1.streamtime_last_poll)
      ∧ (tw = .ok [] → ki = .ok [] → yt = .ok [] →
          r1.streamtime_live = some ⟨[], [], []⟩) := by
  refine ⟨_, rfl, rfl, rfl, ?_, ?_⟩
  · intro r2 h2
    injection h2 with h2
    subst h2
    exact ⟨rfl, rfl⟩
  · intro h1 h2 h3
    subst h1; subst h2; subst h3
    rfl

/-- Witness for C8 at concrete inputs: polling with all-empty results on
a storage holding an older nonempty snapshot replaces it by the empty
snapshot and stamps the given time. -/
theorem pollAll_overwrites_snapshot_witness :
    ∃ r1, pollAll (Except.ok []) (.ok []) (.ok []) "t1"
        { streamtime := [], streamtime_live := some ⟨[[("id", JVal.jnum 9)]], [], []⟩,
          streamtime_last_poll := some "t0" } = .ok r1
      ∧ r1.streamtime_last_poll = some "t1"
      ∧ r1.streamtime_live = some ⟨[], [], []⟩ := by
  obtain ⟨r1, h1, h2, h3, h4, h5⟩ :=
    pollAll_overwrites_snapshot (Except.ok []) (.ok []) (.ok []) "t1"
      { streamtime := [], streamtime_live := some ⟨[[("id", JVal.jnum 9)]], [], []⟩,
        streamtime_last_poll := some "t0" }
      { streamtime := [], streamtime_live := some ⟨[[("id", JVal.jnum 9)]], [], []⟩,
        streamtime_last_poll := some "t0" }
  exact ⟨r1, h1, h2, h5 rfl rfl rfl⟩

/-- Claim C5: one notification is created exactly per entry whose
platform key is live now but was not in the previous live set, the
previous live set is replaced by the current id set unconditionally, a
key live in two consecutive checks is not notified at the second check,
and a key that left the live set and returned is notified again. -/
theorem checkLiveChannels_notifies_new_only (ld : LiveState) (prev : List String) :
    ((checkLiveChannels (some ld) prev).1.map Notif.id
        = (currentLiveIds ld).filter (fun i => !(prev.contains i)))
    ∧ (checkLiveChannels (some ld) prev).2 = currentLiveIds ld
    ∧ (∀ ld2 k, k ∈ currentLiveIds ld → k ∈ currentLiveIds ld2 →
        k ∉ (checkLiveChannels (some ld2)
              (checkLiveChannels (some ld) prev).2).1.map Notif.id)
    ∧ (∀ ld2 ld3 k, k ∉ currentLiveIds ld2 → k ∈ currentLiveIds ld3 →
        k ∈ (checkLiveChannels (some ld3)
              (checkLiveChannels (some ld2) prev).2).1.map Notif.id) := by
  have hmain : ∀ (l : LiveState) (p : List String),
      (checkLiveChannels (some l) p).1.map Notif.id
        = (currentLiveIds l).filter (fun i => !(p.contains i)) := by
    intro l p
    show ((notifyList p twitchKey _ l.twitch) ++ (notifyList p kickKey _ l.kick)
        ++ (notifyList p ytKey _ l.youtube)).map Notif.id = _
    rw [List.map_append, List.map_append]
    rw [notifyList_ids p twitchKey _ (fun _ => rfl) l.twitch,
        notifyList_ids p kickKey _ (fun _ => rfl) l.kick,
        notifyList_ids p ytKey _ (fun _ => rfl) l.youtube]
    unfold currentLiveIds
    rw [List.filter_append, List.filter_append]
  refine ⟨hmain ld prev, rfl, ?_, ?_⟩
  · intro ld2 k hk1 hk2 hmem
    rw [hmain] at hmem
    rcases List.mem_filter.mp hmem with ⟨hin, hflag⟩
    have hco : (currentLiveIds ld).contains k = true := (contains_eq_mem _ _).mpr hk1
    have hflag2 : (!(currentLiveIds ld).contains k) = true := hflag
    rw [hco] at hflag2
    exact absurd hflag2 (by decide)
  · intro ld2 ld3 k hk2 hk3
    rw [hmain]
    apply List.mem_filter.mpr
    refine ⟨hk3, ?_⟩
    show (!(currentLiveIds ld2).contains k) = true
    have hcf : (currentLiveIds ld2).contains k = false := by
      cases hcc : (currentLiveIds ld2).contains k with
      | false => rfl
      | true => exact absurd ((contains_eq_mem _ _).mp hcc) hk2
    rw [hcf]
    rfl

/-- Witness for C5 at the concrete scenario of the specification: with
twitch-1 previously live, a snapshot where twitch-1 stays live and
twitch-2 is newly live fires exactly one notification, for twitch-2, and
the previous set becomes both keys. -/
theorem checkLiveChannels_notifies_new_only_witness :
    ((checkLiveChannels
        (some ⟨[[("user_id", JVal.jstr "1")], [("user_id", JVal.jstr "2")]], [], []⟩)
        ["twitch-1"]).1.map Notif.id = ["twitch-2"])
    ∧ (checkLiveChannels
        (some ⟨[[("user_id", JVal.jstr "1")], [("user_id", JVal.jstr "2")]], [], []⟩)
        ["twitch-1"]).2 = ["twitch-1", "twitch-2"]
    ∧ ("twitch-1" ∉ (checkLiveChannels
        (some ⟨[[("user_id", JVal.jstr "1")]], [], []⟩)
        (checkLiveChannels
          (some ⟨[[("user_id", JVal.jstr "1")], [("user_id", JVal.jstr "2")]], [], []⟩)
          ["twitch-1"]).2).1.map Notif.id) := by
  refine ⟨?_, ?_, ?_⟩
  · rw [(checkLiveChannels_notifies_new_only
      ⟨[[("user_id", JVal.jstr "1")], [("user_id", JVal.jstr "2")]], [], []⟩
      ["twitch-1"]).1]
    rfl
  · rw [(checkLiveChannels_notifies_new_only
      ⟨[[("user_id", JVal.jstr "1")], [("user_id", JVal.jstr "2")]], [], []⟩
      ["twitch-1"]).2.1]
    rfl
  · exact (checkLiveChannels_notifies_new_only
      ⟨[[("user_id", JVal.jstr "1")], [("user_id", JVal.jstr "2")]], [], []⟩
      ["twitch-1"]).2.2.1 ⟨[[("user_id", JVal.jstr "1")]], [], []⟩ "twitch-1"
      (by simp [currentLiveIds, twitchKey, olookup, jtmpl, jvalToString])
      (by simp [currentLiveIds, twitchKey, olookup, jtmpl, jvalToString])

/-- Claim C10: with no stored snapshot, or a stored snapshot whose three
lists are empty, the notification check creates no notification and
resets the previous live set to empty, for any previous set. -/
theorem checkLiveChannels_empty_state (prev : List String) :
    checkLiveChannels none prev = ([], [])
    ∧ checkLiveChannels (some ⟨[], [], []⟩) prev = ([], []) :=
  ⟨rfl, rfl⟩

/-- A concrete kick channel record with a live stream. -/
def demoKickChannel : KickChannel :=
  { broadcaster_user_id := 7, slug := "kchan", stream_title := some "KT",
    category_name := some "KG",
    stream := some { is_live := true, viewer_count := some 3,
                     start_time := some "2024-01-01T00:00:00Z" } }

/-- A concrete youtube live search item. -/
def demoYTItem : YTItem :=
  { videoId := "v1", title := "YT", publishedAt := "2024-01-01T00:00:00Z" }

/-- Claim C6 counterexample: no adapter writes a platformKey field into
its entries, and the youtube entry carries no uptime (nor game, viewers
or display name) field, so the claimed common LiveEntry shape does not
hold of the adapters' outputs. -/
theorem adapters_lack_common_shape :
    ("platformKey" ∉ (twitchStreamEntry (fun _ => some 0) 0 demoStream).map Prod.fst)
    ∧ ("platformKey" ∉ (kickChannelEntry (fun _ => some 0) 0 demoKickChannel).map Prod.fst)
    ∧ ("platformKey" ∉ (ytItemEntry (fun _ => some 0) 0 "UC1" demoYTItem).map Prod.fst)
    ∧ ("uptime" ∉ (ytItemEntry (fun _ => some 0) 0 "UC1" demoYTItem).map Prod.fst)
    ∧ ("game" ∉ (ytItemEntry (fun _ => some 0) 0 "UC1" demoYTItem).map Prod.fst)
    ∧ ("viewers" ∉ (ytItemEntry (fun _ => some 0) 0 "UC1" demoYTItem).map Prod.fst) := by
  refine ⟨?_, ?_, ?_, ?_, ?_, ?_⟩ <;> decide

/-- Claim C6 as amended: the Twitch and Kick adapters emit entries with
identity, name, title, game, viewers, started_at, uptime and url fields
(under the platform field names of the source), the YouTube adapter emits
only channelId, title, url, started_at and duration, and the platform
keys twitch-user_id, kick-id and yt-channelId are not stored fields but are
derived from the entries by the notification check key expressions. -/
theorem adapter_entry_fields_and_keys (parse : String → JSNum) (now : Int)
    (s : TwitchStream) (ch : KickChannel) (cid : String) (v : YTItem) :
    (twitchStreamEntry parse now s).map Prod.fst
      = ["user_id", "user_login", "display_name", "title", "game", "viewers",
         "started_at", "uptime", "url"]
    ∧ (kickChannelEntry parse now ch).map Prod.fst
      = ["id", "slug", "title", "game", "viewers", "started_at", "uptime", "url"]
    ∧ (ytItemEntry parse now cid v).map Prod.fst
      = ["channelId", "title", "url", "started_at", "duration"]
    ∧ twitchKey (twitchStreamEntry parse now s) = "twitch-" ++ s.user_id
    ∧ kickKey (kickChannelEntry parse now ch)
      = "kick-" ++ toString ch.broadcaster_user_id
    ∧ ytKey (ytItemEntry parse now cid v) = "yt-" ++ cid := by
  refine ⟨rfl, rfl, rfl, rfl, rfl, rfl⟩

/-- Claim C9: a settings merge leaves platforms not mentioned in the new
data unchanged, and inside a mentioned platform the stored fields absent
from the new data keep their stored values while fields present in the
new data take the new values. -/
theorem mergeSettings_preserves_frame (cur : Settings) (nd : List (String × Obj)) :
    (∀ k, k ∉ nd.map Prod.fst → olookup (mergeSettings cur nd) k = olookup cur k)
    ∧ (∀ p src, nd = [(p, src)] →
        olookup (mergeSettings cur nd) p
          = some (oassign ((olookup cur p).getD []) src)
        ∧ (∀ f, olookup src f = none →
            olookup (oassign ((olookup cur p).getD []) src) f
              = olookup ((olookup cur p).getD []) f)
        ∧ (∀ f v, olookup src f = some v →
            olookup (oassign ((olookup cur p).getD []) src) f = some v)) := by
  constructor
  · intro k hk
    exact mergeSettings_unmentioned cur nd k hk
  · intro p src hnd
    subst hnd
    refine ⟨by simp [mergeSettings_cons, olookup], ?_, ?_⟩
    · intro f hf
      unfold oassign
      rw [olookup_append, hf]
      rfl
    · intro f v hf
      unfold oassign
      rw [olookup_append, hf]
      rfl

/-- The stored settings of the specification example for C9. -/
def settingsC9 : Settings :=
  [("twitch", [("clientId", .jstr "x")]), ("kick", [("clientId", .jstr "kc")])]

/-- The new data of the specification example for C9. -/
def newDataC9 : List (String × Obj) :=
  [("twitch", [("channels", .jarr [.jstr "a"])])]

/-- Witness for C9 at the specification example: saving twitch channels
leaves kick untouched and keeps twitch clientId next to the new
channels value. -/
theorem mergeSettings_preserves_frame_witness :
    ("kick" ∉ newDataC9.map Prod.fst)
    ∧ olookup (mergeSettings settingsC9 newDataC9) "kick" = olookup settingsC9 "kick"
    ∧ olookup (mergeSettings settingsC9 newDataC9) "twitch"
        = some (oassign ((olookup settingsC9 "twitch").getD [])
            [("channels", .jarr [.jstr "a"])])
    ∧ olookup (oassign ((olookup settingsC9 "twitch").getD [])
          [("channels", .jarr [.jstr "a"])]) "clientId"
        = olookup ((olookup settingsC9 "twitch").getD []) "clientId"
    ∧ olookup (oassign ((olookup settingsC9 "twitch").getD [])
          [("channels", .jarr [.jstr "a"])]) "channels"
        = some (.jarr [.jstr "a"]) := by
  refine ⟨by decide, ?_, ?_, ?_, ?_⟩
  · exact (mergeSettings_preserves_frame settingsC9 newDataC9).1 "kick" (by decide)
  · exact ((mergeSettings_preserves_frame settingsC9 newDataC9).2 "twitch"
      [("channels", .jarr [.jstr "a"])] rfl).1
  · exact ((mergeSettings_preserves_frame settingsC9 newDataC9).2 "twitch"
      [("channels", .jarr [.jstr "a"])] rfl).2.1 "clientId" rfl
  · exact ((mergeSettings_preserves_frame settingsC9 newDataC9).2 "twitch"
      [("channels", .jarr [.jstr "a"])] rfl).2.2 "channels" _ rfl

/-- Claim C3: no durable settings write stores an access token.  The
merge write preserves the no-stored-access-token invariant whenever the
written platform objects carry none; both token refreshes preserve the
invariant for any outcome and, on success, put the new token in the
cookie jar and change the durable platform object at most at its
refreshToken field, leaving other platforms untouched; and the options
page save preserves the invariant even when the saved fields carry an
access token. -/
theorem accessToken_never_persisted :
    (∀ cur nd, noStoredAccessToken cur = true →
       (∀ p ∈ nd, (olookup p.2 "accessToken").isNone = true) →
       noStoredAccessToken (mergeSettings cur nd) = true)
    ∧ (∀ cid sec rt outcome st cookies, noStoredAccessToken st = true →
        noStoredAccessToken (refreshTwitchToken cid sec rt outcome st cookies).2.1 = true
        ∧ (∀ tok, (refreshTwitchToken cid sec rt outcome st cookies).1 = some tok →
            olookup (refreshTwitchToken cid sec rt outcome st cookies).2.2
                ("https://api.twitch.tv/", "twitch_access_token") = some tok
            ∧ (∀ f, f ≠ "refreshToken" →
                olookup ((olookup (refreshTwitchToken cid sec rt outcome st cookies).2.1
                    "twitch").getD []) f
                  = olookup ((olookup st "twitch").getD []) f)
            ∧ (∀ q, q ≠ "twitch" →
                olookup (refreshTwitchToken cid sec rt outcome st cookies).2.1 q
                  = olookup st q)))
    ∧ (∀ cid sec rt outcome st cookies, noStoredAccessToken st = true →
        noStoredAccessToken (refreshKickToken cid sec rt outcome st cookies).2.1 = true
        ∧ (∀ tok, (refreshKickToken cid sec rt outcome st cookies).1 = some tok →
            olookup (refreshKickToken cid sec rt outcome st cookies).2.2
                ("https://kick.com/", "kick_access_token") = some tok
            ∧ (∀ f, f ≠ "refreshToken" →
                olookup ((olookup (refreshKickToken cid sec rt outcome st cookies).2.1
                    "kick").getD []) f
                  = olookup ((olookup st "kick").getD []) f)
            ∧ (∀ q, q ≠ "kick" →
                olookup (refreshKickToken cid sec rt outcome st cookies).2.1 q
                  = olookup st q)))
    ∧ (∀ platform obj st cookies, noStoredAccessToken st = true →
        noStoredAccessToken (saveSettings platform obj st cookies).1 = true) := by
  refine ⟨?_, ?_, ?_, ?_⟩
  · intro cur nd h1 h2
    exact noStoredAccessToken_merge cur nd h1 h2
  · intro cid sec rt outcome st cookies h
    exact refreshTwitchToken_spec cid sec rt outcome st cookies h
  · intro cid sec rt outcome st cookies h
    exact refreshKickToken_spec cid sec rt outcome st cookies h
  · intro platform obj st cookies h
    exact saveSettings_noAT platform obj st cookies h

/-- A concrete stored settings record with no access token for C3. -/
def settingsC3 : Settings := [("twitch", [("refreshToken", .jstr "old")])]

/-- A concrete successful token-endpoint response for C3. -/
def refreshOutcomeC3 : RefreshOutcome :=
  .httpResp 200 [("access_token", .jstr "AT"), ("refresh_token", .jstr "RT")]

/-- Witness for C3 at a concrete successful twitch refresh: the stored
record keeps satisfying the invariant, the cookie jar receives the new
access token, and an options-page save that carries an access token still
leaves the durable record without one. -/
theorem accessToken_never_persisted_witness :
    noStoredAccessToken settingsC3 = true
    ∧ noStoredAccessToken
        (refreshTwitchToken "c" "s" "old" refreshOutcomeC3 settingsC3 []).2.1 = true
    ∧ olookup (refreshTwitchToken "c" "s" "old" refreshOutcomeC3 settingsC3 []).2.2
        ("https://api.twitch.tv/", "twitch_access_token") = some "AT"
    ∧ noStoredAccessToken
        (saveSettings "twitch" [("accessToken", .jstr "AT2")] settingsC3 []).1 = true := by
  refine ⟨by decide, ?_, ?_, ?_⟩
  · exact (accessToken_never_persisted.2.1 "c" "s" "old" refreshOutcomeC3 settingsC3 []
      (by decide)).1
  · exact ((accessToken_never_persisted.2.1 "c" "s" "old" refreshOutcomeC3 settingsC3 []
      (by decide)).2 "AT" rfl).1
  · exact accessToken_never_persisted.2.2.2 "twitch" [("accessToken", .jstr "AT2")]
      settingsC3 [] (by decide)
